import Mathlib

/-!
# Verification of `hcid/dbus.c` (BlueZ D-Bus device-management service)

Shallow embedding of the data model and operations of `src/hcid/dbus.c`:
the error-code to message mapping, the request router (`msg_func_device`,
`msg_func_manager`), the mode handlers (`handle_dev_get_mode_req`,
`handle_dev_set_mode_req`), the remote-name handler
(`handle_dev_remote_name_req`), the controller registration functions
(`hcid_dbus_register_device`, `hcid_dbus_unregister_device`) and the PIN
correlator (`hcid_dbus_request_pin`, `reply_handler_function`).

External collaborators (libdbus, the HCI transport, the textfile name
cache, the kernel route query) are modelled as explicit oracle inputs.
Machine integers are `Nat` with explicit truncation (`% 256`, bitmasks via
`Nat.land` / `Nat.lor`) where the C code narrows or masks.
-/

namespace BluezDBus

/-! ## Constants

`SCAN_*` come from `bluetooth/hci.h`; `MODE_*`, the `BLUEZ_*` error
offsets/codes, the path-id tags and the interface strings come from
`hcid/dbus.h`.  Those headers are not part of this repository snapshot
(only `hcid/dbus.c` is), so their values are modelled from the spec:
three disjoint error ranges distinguished by reserved high bits, abstract
modes 0/1/2, and distinct path-id tags. -/

/-- Raw scan-enable bit: scanning disabled (from `bluetooth/hci.h`). -/
def SCAN_DISABLED : Nat := 0x00

/-- Raw scan-enable bit: inquiry scan (from `bluetooth/hci.h`). -/
def SCAN_INQUIRY : Nat := 0x01

/-- Raw scan-enable bit: page scan (from `bluetooth/hci.h`). -/
def SCAN_PAGE : Nat := 0x02

/-- Abstract mode byte: off.  Modelled from the spec: `MODE_OFF` of `hcid/dbus.h`. -/
def MODE_OFF : Nat := 0x00

/-- Abstract mode byte: connectable.  Modelled from the spec: `MODE_CONNECTABLE`. -/
def MODE_CONNECTABLE : Nat := 0x01

/-- Abstract mode byte: discoverable.  Modelled from the spec: `MODE_DISCOVERABLE`. -/
def MODE_DISCOVERABLE : Nat := 0x02

/-- Modelled from the spec: `BLUEZ_EBT_OFFSET` of `hcid/dbus.h`, the
controller-status error range (raw HCI status codes, no offset bit). -/
def BLUEZ_EBT_OFFSET : Nat := 0x00000000

/-- Modelled from the spec: `BLUEZ_EDBUS_OFFSET` of `hcid/dbus.h`, the
reserved high bit marking local D-Bus protocol errors. -/
def BLUEZ_EDBUS_OFFSET : Nat := 0x00010000

/-- Modelled from the spec: `BLUEZ_ESYSTEM_OFFSET` of `hcid/dbus.h`, the
reserved high bit marking system/errno errors. -/
def BLUEZ_ESYSTEM_OFFSET : Nat := 0x00020000

/-- Modelled from the spec: D-Bus error code "unknown method". -/
def BLUEZ_EDBUS_UNKNOWN_METHOD : Nat := BLUEZ_EDBUS_OFFSET + 0x01

/-- Modelled from the spec: D-Bus error code "wrong signature". -/
def BLUEZ_EDBUS_WRONG_SIGNATURE : Nat := BLUEZ_EDBUS_OFFSET + 0x02

/-- Modelled from the spec: D-Bus error code "wrong parameter". -/
def BLUEZ_EDBUS_WRONG_PARAM : Nat := BLUEZ_EDBUS_OFFSET + 0x03

/-- Modelled from the spec: D-Bus error code "record not found". -/
def BLUEZ_EDBUS_RECORD_NOT_FOUND : Nat := BLUEZ_EDBUS_OFFSET + 0x04

/-- Modelled from the spec: D-Bus error code "out of memory". -/
def BLUEZ_EDBUS_NO_MEM : Nat := BLUEZ_EDBUS_OFFSET + 0x05

/-- Modelled from the spec: D-Bus error code "connection not found". -/
def BLUEZ_EDBUS_CONN_NOT_FOUND : Nat := BLUEZ_EDBUS_OFFSET + 0x06

/-- Modelled from the spec: D-Bus error code "unknown path". -/
def BLUEZ_EDBUS_UNKNOWN_PATH : Nat := BLUEZ_EDBUS_OFFSET + 0x07

/-- Modelled from the spec: D-Bus error code "not implemented". -/
def BLUEZ_EDBUS_NOT_IMPLEMENTED : Nat := BLUEZ_EDBUS_OFFSET + 0x08

/-- Linux `ENODEV` errno value. -/
def ENODEV : Nat := 19

/-- Modelled from the spec: `BLUEZ_ESYSTEM_ENODEV` of `hcid/dbus.h`. -/
def BLUEZ_ESYSTEM_ENODEV : Nat := BLUEZ_ESYSTEM_OFFSET + ENODEV

/-- Modelled from the spec: path-id tag of the manager root entry. -/
def MANAGER_ROOT_ID : Nat := 0

/-- Modelled from the spec: path-id tag of the device-root fallback entry. -/
def DEVICE_ROOT_ID : Nat := 1

/-- Modelled from the spec: path-id tag of a concrete per-controller device entry. -/
def DEVICE_PATH_ID : Nat := 2

/-- Modelled from the spec: the "no controller" sentinel device id. -/
def INVALID_DEV_ID : Nat := 0xFFFF

/-! ## Error tables and failure replies (`dbus.c` lines 184-297) -/

/-- One entry of a `bluez_error_t` array: numeric code and human-readable text. -/
structure BluezError where
  code : Nat
  str : String
  deriving DecidableEq, Repr

/-- `dbus_error_array` of `dbus.c`: the local D-Bus protocol error table
(terminator `{0, NULL}` omitted; the Lean list end plays its role). -/
def dbus_error_array : List BluezError := [
  ⟨BLUEZ_EDBUS_UNKNOWN_METHOD,  "Method not found"⟩,
  ⟨BLUEZ_EDBUS_WRONG_SIGNATURE, "Wrong method signature"⟩,
  ⟨BLUEZ_EDBUS_WRONG_PARAM,     "Invalid parameters"⟩,
  ⟨BLUEZ_EDBUS_RECORD_NOT_FOUND, "No record found"⟩,
  ⟨BLUEZ_EDBUS_NO_MEM,          "No memory"⟩,
  ⟨BLUEZ_EDBUS_CONN_NOT_FOUND,  "Connection not found"⟩,
  ⟨BLUEZ_EDBUS_UNKNOWN_PATH,    "Unknown D-BUS path"⟩,
  ⟨BLUEZ_EDBUS_NOT_IMPLEMENTED, "Method not implemented"⟩]

/-- `hci_error_array` of `dbus.c`: the controller-status error table.  The
`HCI_*` code values come from `bluetooth/hci.h` (not in this snapshot) and
are the standard Bluetooth HCI status codes 0x01-0x35. -/
def hci_error_array : List BluezError := [
  ⟨0x01, "Unknown HCI Command"⟩,
  ⟨0x02, "Unknown Connection Identifier"⟩,
  ⟨0x03, "Hardware Failure"⟩,
  ⟨0x04, "Page Timeout"⟩,
  ⟨0x05, "Authentication Failure"⟩,
  ⟨0x06, "PIN Missing"⟩,
  ⟨0x07, "Memory Capacity Exceeded"⟩,
  ⟨0x08, "Connection Timeout"⟩,
  ⟨0x09, "Connection Limit Exceeded"⟩,
  ⟨0x0a, "Synchronous Connection Limit To A Device Exceeded"⟩,
  ⟨0x0b, "ACL Connection Already Exists"⟩,
  ⟨0x0c, "Command Disallowed"⟩,
  ⟨0x0d, "Connection Rejected due to Limited Resources"⟩,
  ⟨0x0e, "Connection Rejected Due To Security Reasons"⟩,
  ⟨0x0f, "Connection Rejected due to Unacceptable BD_ADDR"⟩,
  ⟨0x10, "Connection Accept Timeout Exceeded"⟩,
  ⟨0x11, "Unsupported Feature or Parameter Value"⟩,
  ⟨0x12, "Invalid HCI Command Parameters"⟩,
  ⟨0x13, "Remote User Terminated Connection"⟩,
  ⟨0x14, "Remote Device Terminated Connection due to Low Resources"⟩,
  ⟨0x15, "Remote Device Terminated Connection due to Power Off"⟩,
  ⟨0x16, "Connection Terminated By Local Host"⟩,
  ⟨0x17, "Repeated Attempts"⟩,
  ⟨0x18, "Pairing Not Allowed"⟩,
  ⟨0x19, "Unknown LMP PDU"⟩,
  ⟨0x1a, "Unsupported Remote Feature"⟩,
  ⟨0x1b, "SCO Offset Rejected"⟩,
  ⟨0x1c, "SCO Interval Rejected"⟩,
  ⟨0x1d, "SCO Air Mode Rejected"⟩,
  ⟨0x1e, "Invalid LMP Parameters"⟩,
  ⟨0x1f, "Unspecified Error"⟩,
  ⟨0x20, "Unsupported LMP Parameter Value"⟩,
  ⟨0x21, "Role Change Not Allowed"⟩,
  ⟨0x22, "LMP Response Timeout"⟩,
  ⟨0x23, "LMP Error Transaction Collision"⟩,
  ⟨0x24, "LMP PDU Not Allowed"⟩,
  ⟨0x25, "Encryption Mode Not Acceptable"⟩,
  ⟨0x26, "Link Key Can Not be Changed"⟩,
  ⟨0x27, "Requested QoS Not Supported"⟩,
  ⟨0x28, "Instant Passed"⟩,
  ⟨0x29, "Pairing With Unit Key Not Supported"⟩,
  ⟨0x2a, "Different Transaction Collision"⟩,
  ⟨0x2c, "QoS Unacceptable Parameter"⟩,
  ⟨0x2d, "QoS Rejected"⟩,
  ⟨0x2e, "Channel Classification Not Supported"⟩,
  ⟨0x2f, "Insufficient Security"⟩,
  ⟨0x30, "Parameter Out Of Mandatory Range"⟩,
  ⟨0x32, "Role Switch Pending"⟩,
  ⟨0x34, "Reserved Slot Violation"⟩,
  ⟨0x35, "Role Switch Failed"⟩]

/-- The C lookup loop `for (ptr = array; ptr->code; ptr++) if (ptr->code == ecode) ...`:
first entry whose code equals `ecode`, `none` when the terminator is reached. -/
def findErrorStr : List BluezError → Nat → Option String
  | [], _ => none
  | e :: rest, ecode => if e.code = ecode then some e.str else findErrorStr rest ecode

/-- Modelled from the spec: the platform's total error-code-to-text mapping
(libc `strerror`), an opaque external collaborator that never returns NULL. -/
def strerror (e : Nat) : String := "system error " ++ toString e

/-- `bluez_dbus_error_to_str` of `dbus.c` (lines 250-279).  Branches on the
reserved offset bits: system errors via `strerror` of the unmasked code,
D-Bus errors via `dbus_error_array`, everything else via `hci_error_array`;
unmatched table codes give `none` (the C `NULL`). -/
def bluez_dbus_error_to_str (ecode : Nat) : Option String :=
  if Nat.land ecode BLUEZ_ESYSTEM_OFFSET ≠ 0 then
    some (strerror (Nat.land (Nat.xor 0xFFFFFFFF BLUEZ_ESYSTEM_OFFSET) ecode))
  else if Nat.land ecode BLUEZ_EDBUS_OFFSET ≠ 0 then
    findErrorStr dbus_error_array ecode
  else
    findErrorStr hci_error_array ecode

/-- A D-Bus message argument (the typed basic values this code appends). -/
inductive DBusArg where
  | str (s : String)
  | byte (b : Nat)
  | uint32 (n : Nat)
  | boolean (b : Bool)
  | byteArray (bs : List Nat)
  deriving DecidableEq, Repr

/-- A reply message produced by a handler: a method return or an error
message (error-name string plus appended arguments). -/
inductive Reply where
  | methodReturn (args : List DBusArg)
  | errorReply (name : String) (args : List DBusArg)
  deriving DecidableEq, Repr

/-- `bluez_new_failure_msg` of `dbus.c` (lines 281-297): looks up the error
text; on `NULL` returns no message at all, otherwise builds an error reply
whose error name is the text and whose sole argument is the code as uint32. -/
def bluez_new_failure_msg (ecode : Nat) : Option Reply :=
  (bluez_dbus_error_to_str ecode).map fun s => Reply.errorReply s [DBusArg.uint32 ecode]

/-- The code ranges as the branch structure of `bluez_dbus_error_to_str`
partitions them: a code is in the D-Bus range when it reaches the
`dbus_error_array` branch. -/
def inDbusRange (ecode : Nat) : Prop :=
  Nat.land ecode BLUEZ_ESYSTEM_OFFSET = 0 ∧ Nat.land ecode BLUEZ_EDBUS_OFFSET ≠ 0

/-- A code is in the controller-status range when it reaches the
`hci_error_array` branch of `bluez_dbus_error_to_str`. -/
def inHciRange (ecode : Nat) : Prop :=
  Nat.land ecode BLUEZ_ESYSTEM_OFFSET = 0 ∧ Nat.land ecode BLUEZ_EDBUS_OFFSET = 0

instance (e : Nat) : Decidable (inDbusRange e) := by unfold inDbusRange; infer_instance

instance (e : Nat) : Decidable (inHciRange e) := by unfold inHciRange; infer_instance

/-! ## Per-path record and handler tables (`dbus.c` lines 74-416) -/

/-- `struct hci_dbus_data`: the opaque per-path record bound to every
registered object path (controller id, path-kind tag, cached mode word). -/
structure HciDbusData where
  dev_id : Nat
  path_id : Nat
  path_data : Nat
  deriving DecidableEq, Repr

/-- One entry of `struct service_data`: method name and argument-type
signature; the handler function pointer is identified by the entry name
(all table names are distinct). -/
structure ServiceData where
  name : String
  signature : String
  deriving DecidableEq, Repr

/-- `dev_services` of `dbus.c` (lines 362-404).  The `DEV_*` name and
signature string constants live in `hcid/dbus.h`, which is not in this
snapshot; names of the implemented methods are taken from the spec (§6),
the remaining stub names and the signatures are modelled from the spec
("" for argument-less calls, "y" byte, "s" string, "u" uint32). -/
def dev_services : List ServiceData := [
  ⟨"GetAddress", ""⟩,
  ⟨"GetAlias", "s"⟩,
  ⟨"GetCompany", ""⟩,
  ⟨"GetDiscoverableTimeout", ""⟩,
  ⟨"GetFeatures", ""⟩,
  ⟨"GetManufacturer", ""⟩,
  ⟨"GetMode", ""⟩,
  ⟨"GetName", ""⟩,
  ⟨"GetRevision", ""⟩,
  ⟨"GetVersion", ""⟩,
  ⟨"IsConnectable", ""⟩,
  ⟨"IsDiscoverable", ""⟩,
  ⟨"SetAlias", "s"⟩,
  ⟨"SetClass", "u"⟩,
  ⟨"SetDiscoverableTimeout", "u"⟩,
  ⟨"SetMode", "y"⟩,
  ⟨"SetName", "s"⟩,
  ⟨"DiscoverDevices", ""⟩,
  ⟨"DiscoverCache", ""⟩,
  ⟨"CancelDiscovery", ""⟩,
  ⟨"DiscoverService", "s"⟩,
  ⟨"LastSeen", "s"⟩,
  ⟨"LastUsed", "s"⟩,
  ⟨"GetRemoteAlias", "s"⟩,
  ⟨"GetRemoteName", "s"⟩,
  ⟨"GetRemoteVersion", "s"⟩,
  ⟨"CreateBonding", "s"⟩,
  ⟨"ListBondings", ""⟩,
  ⟨"HasBonding", "s"⟩,
  ⟨"RemoveBonding", "s"⟩,
  ⟨"PinCodeLength", "s"⟩,
  ⟨"EncryptionKeySize", "s"⟩]

/-- `mgr_services` of `dbus.c` (lines 412-416); names from the spec (§6). -/
def mgr_services : List ServiceData := [
  ⟨"ListDevices", ""⟩,
  ⟨"GetDefaultDevice", ""⟩]

/-- Modelled from the spec: the manager's fixed interface name string
(`MANAGER_INTERFACE` of `hcid/dbus.h`). -/
def MANAGER_INTERFACE : String := "org.bluez.Manager"

/-! ## Request router (`msg_func_device` lines 1248-1301,
`msg_func_manager` lines 1303-1346) -/

/-- Result of scanning a handler table: the invoked handlers (in
invocation order, identified by table entry name), the final value of the
`error` variable, and whether `ret` was set to `HANDLED`. -/
structure ScanResult where
  invoked : List String
  error : Nat
  handled : Bool
  deriving DecidableEq, Repr

/-- The dispatch loop of `msg_func_device`: on a name match set
`ret = HANDLED`; on a signature match invoke the handler, clear `error`
and `break`; on a mismatch set `error = WRONG_SIGNATURE` and continue. -/
def scanDeviceTable : List ServiceData → String → String → Nat → Bool → ScanResult
  | [], _, _, err, h => ⟨[], err, h⟩
  | e :: rest, m, s, err, h =>
    if e.name = m then
      if e.signature = s then ⟨[e.name], 0, true⟩
      else scanDeviceTable rest m s BLUEZ_EDBUS_WRONG_SIGNATURE true
    else scanDeviceTable rest m s err h

/-- The dispatch loop of `msg_func_manager`: same matching, but without a
`break` — the loop always scans the whole table, so a later same-named
entry can invoke again or overwrite `error`. -/
def scanManagerTable : List ServiceData → String → String → List String → Nat → Bool → ScanResult
  | [], _, _, inv, err, h => ⟨inv, err, h⟩
  | e :: rest, m, s, inv, err, h =>
    if e.name = m then
      if e.signature ≠ s then scanManagerTable rest m s inv BLUEZ_EDBUS_WRONG_SIGNATURE true
      else scanManagerTable rest m s (inv ++ [e.name]) 0 true
    else scanManagerTable rest m s inv err h

/-- What the router sends back: an attempted failure reply
(`bluez_new_failure_msg error`) or the reply the named handler returned. -/
inductive RouteReply where
  | failureCode (ecode : Nat)
  | fromHandler (name : String)
  deriving DecidableEq, Repr

/-- Observable outcome of one router run. -/
structure RouteResult where
  handled : Bool
  tableScanned : Bool
  invoked : List String
  reply : Option RouteReply
  deriving DecidableEq, Repr

/-- `msg_func_device` of `dbus.c` (lines 1248-1301): requests whose path
record carries `DEVICE_ROOT_ID` (the device-root fallback) are answered
"unknown path" without consulting the table; otherwise the device table is
scanned and, when `error` is still set after the loop, the failure reply
replaces any handler reply. -/
def msg_func_device (dbus_data : HciDbusData) (method signature : String) : RouteResult :=
  if dbus_data.path_id = DEVICE_ROOT_ID then
    { handled := true, tableScanned := false, invoked := [],
      reply := some (RouteReply.failureCode BLUEZ_EDBUS_UNKNOWN_PATH) }
  else
    let r := scanDeviceTable dev_services method signature BLUEZ_EDBUS_UNKNOWN_METHOD false
    { handled := r.handled, tableScanned := true, invoked := r.invoked,
      reply := if r.error ≠ 0 then some (RouteReply.failureCode r.error)
               else (r.invoked.getLast?).map RouteReply.fromHandler }

/-- `msg_func_manager` of `dbus.c` (lines 1303-1346): calls whose interface
is not the manager interface are left unhandled with no reply; otherwise
the manager table is scanned (no `break`) and a pending `error` value
replaces any handler reply. -/
def msg_func_manager (iface method signature : String) : RouteResult :=
  if iface ≠ MANAGER_INTERFACE then
    { handled := false, tableScanned := false, invoked := [], reply := none }
  else
    let r := scanManagerTable mgr_services method signature [] BLUEZ_EDBUS_UNKNOWN_METHOD false
    { handled := r.handled, tableScanned := true, invoked := r.invoked,
      reply := if r.error ≠ 0 then some (RouteReply.failureCode r.error)
               else (r.invoked.getLast?).map RouteReply.fromHandler }

/-! ## Global state and the opaque HCI transport -/

/-- The shared mutable state the handlers can see: the object-path
registry (libdbus path bindings with their `hci_dbus_data` records,
`connection`-owned) and the `default_dev` global (`-1` is `none`). -/
structure World where
  paths : List (String × HciDbusData)
  default_dev : Option Nat
  deriving DecidableEq, Repr

/-- One call into the opaque HCI transport layer. -/
inductive TransportCall where
  | openDev (dev_id : Nat)
  | sendReq (ogf ocf : Nat)
  | sendCmd (ogf ocf : Nat)
  deriving DecidableEq, Repr

/-- `OGF_LINK_CTL` (from `bluetooth/hci.h`). -/
def OGF_LINK_CTL : Nat := 0x01

/-- `OGF_HOST_CTL` (from `bluetooth/hci.h`). -/
def OGF_HOST_CTL : Nat := 0x03

/-- `OCF_WRITE_SCAN_ENABLE` (from `bluetooth/hci.h`). -/
def OCF_WRITE_SCAN_ENABLE : Nat := 0x1A

/-- `OCF_READ_SCAN_ENABLE` (from `bluetooth/hci.h`). -/
def OCF_READ_SCAN_ENABLE : Nat := 0x19

/-- `OCF_REMOTE_NAME_REQ` (from `bluetooth/hci.h`). -/
def OCF_REMOTE_NAME_REQ : Nat := 0x19

/-- `OCF_PIN_CODE_REPLY` (from `bluetooth/hci.h`). -/
def OCF_PIN_CODE_REPLY : Nat := 0x0D

/-- `OCF_PIN_CODE_NEG_REPLY` (from `bluetooth/hci.h`). -/
def OCF_PIN_CODE_NEG_REPLY : Nat := 0x0E

/-- Outcome of one `hci_send_req` call: `sendFailed errno` models a `-1`
return with that `errno`; `responded status` models success with the given
response status byte (plus, where the caller reads one, a response value). -/
inductive SendOutcome where
  | sendFailed (errno : Nat)
  | responded (status : Nat)
  deriving DecidableEq, Repr

/-- Counts the write-scan-enable commands in a transport log. -/
def countScanWrites (calls : List TransportCall) : Nat :=
  calls.countP fun c => c = TransportCall.sendReq OGF_HOST_CTL OCF_WRITE_SCAN_ENABLE

/-! ## GetMode / SetMode handlers (`dbus.c` lines 1452-1483, 1572-1641) -/

/-- The `switch (hci_mode)` of `handle_dev_get_mode_req`: raw scan-enable
byte to abstract mode; `SCAN_INQUIRY` alone and every other value map to
the reserved byte 0xff. -/
def hciModeToScanMode (hci_mode : Nat) : Nat :=
  if hci_mode = SCAN_DISABLED then MODE_OFF
  else if hci_mode = SCAN_PAGE then MODE_CONNECTABLE
  else if hci_mode = Nat.lor SCAN_PAGE SCAN_INQUIRY then MODE_DISCOVERABLE
  else 0xff

/-- The `switch (scan_mode)` of `handle_dev_set_mode_req`: abstract mode to
raw scan-enable byte, `none` for the invalid-parameter default branch. -/
def scanModeToHciMode (scan_mode : Nat) : Option Nat :=
  if scan_mode = MODE_OFF then some SCAN_DISABLED
  else if scan_mode = MODE_CONNECTABLE then some SCAN_PAGE
  else if scan_mode = MODE_DISCOVERABLE then some (Nat.lor SCAN_PAGE SCAN_INQUIRY)
  else none

/-- Everything one device-handler run produces: the reply (or `none` for
the C `NULL`), the per-path record as left behind, the global state as
left behind, the transport calls issued and the device-path signals sent. -/
structure HandlerOutcome where
  reply : Option Reply
  data : HciDbusData
  world : World
  calls : List TransportCall
  signals : List (String × List DBusArg)
  deriving DecidableEq, Repr

/-- `handle_dev_get_mode_req` of `dbus.c` (lines 1452-1483): reads the
cached mode byte (`path_data` narrowed to `uint8_t`), maps it through the
switch and returns it as a byte argument.  It reads nothing else and
writes nothing: record, globals, transport and signals are untouched. -/
def handle_dev_get_mode_req (dbus_data : HciDbusData) (w : World) : HandlerOutcome :=
  let hci_mode := dbus_data.path_data % 256
  { reply := some (Reply.methodReturn [DBusArg.byte (hciModeToScanMode hci_mode)]),
    data := dbus_data, world := w, calls := [], signals := [] }

/-- External inputs of one `handle_dev_set_mode_req` run: whether
`hci_open_dev` succeeds, and the outcome of the write-scan-enable
`hci_send_req` (consulted only if the command is actually sent). -/
structure SetModeEnv where
  openOk : Bool
  send : SendOutcome
  deriving DecidableEq, Repr

/-- `handle_dev_set_mode_req` of `dbus.c` (lines 1572-1641): validates the
abstract mode, opens the controller, and sends `WRITE_SCAN_ENABLE` only
when the requested raw mode differs from the cached `path_data` byte;
transport failure maps to a system-range error, a non-zero status byte to
a controller-range error.  Note the C function declares its record
`const` and never writes `path_data`: the cached mode is left unchanged on
every path. -/
def handle_dev_set_mode_req (dbus_data : HciDbusData) (scan_mode : Nat)
    (env : SetModeEnv) (w : World) : HandlerOutcome :=
  let current_mode := dbus_data.path_data % 256
  match scanModeToHciMode scan_mode with
  | none =>
    { reply := bluez_new_failure_msg BLUEZ_EDBUS_WRONG_PARAM,
      data := dbus_data, world := w, calls := [], signals := [] }
  | some hci_mode =>
    if ¬env.openOk then
      { reply := bluez_new_failure_msg BLUEZ_ESYSTEM_ENODEV,
        data := dbus_data, world := w,
        calls := [TransportCall.openDev dbus_data.dev_id], signals := [] }
    else if current_mode ≠ hci_mode then
      let calls := [TransportCall.openDev dbus_data.dev_id,
                    TransportCall.sendReq OGF_HOST_CTL OCF_WRITE_SCAN_ENABLE]
      match env.send with
      | SendOutcome.sendFailed e =>
        { reply := bluez_new_failure_msg (Nat.lor BLUEZ_ESYSTEM_OFFSET e),
          data := dbus_data, world := w, calls := calls, signals := [] }
      | SendOutcome.responded status =>
        if status ≠ 0 then
          { reply := bluez_new_failure_msg (Nat.lor BLUEZ_EBT_OFFSET status),
            data := dbus_data, world := w, calls := calls, signals := [] }
        else
          { reply := some (Reply.methodReturn []),
            data := dbus_data, world := w, calls := calls, signals := [] }
    else
      { reply := some (Reply.methodReturn []),
        data := dbus_data, world := w,
        calls := [TransportCall.openDev dbus_data.dev_id], signals := [] }

/-! ## GetRemoteName handler (`dbus.c` lines 1829-1923, `get_device_name`
lines 92-101) -/

/-- `get_device_name` of `dbus.c` (lines 92-101): keyed lookup in the
external textfile name store by (local controller address, peer address);
the store itself (`textfile_get`) is an opaque collaborator passed in. -/
def get_device_name (store : String → String → Option String)
    (local_addr peer_addr : String) : Option String :=
  store local_addr peer_addr

/-- External inputs of one `handle_dev_remote_name_req` run: the
`hci_devinfo` result (local controller address, `none` on failure), the
name-cache store, whether `hci_open_dev` succeeds (with its `errno`), the
outcome of the remote-name-request `hci_send_req`, and whether putting the
signal onto the bus (`dbus_connection_send`) succeeds. -/
structure RemoteNameEnv where
  devinfo : Option String
  store : String → String → Option String
  openResult : Except Nat Unit
  send : SendOutcome
  signalSendOk : Bool

/-- `handle_dev_remote_name_req` of `dbus.c` (lines 1829-1923): gets the
local controller address, consults the name cache; on a hit replies
success and emits one `RemoteName(peer, name)` signal on the controller's
device path, touching the transport not at all; on a miss opens the
controller and issues one `REMOTE_NAME_REQ` command, mapping failures to
system-range or controller-range error replies. -/
def handle_dev_remote_name_req (dbus_data : HciDbusData) (str_bdaddr : String)
    (env : RemoteNameEnv) (w : World) : HandlerOutcome :=
  match env.devinfo with
  | none =>
    { reply := bluez_new_failure_msg BLUEZ_ESYSTEM_ENODEV,
      data := dbus_data, world := w, calls := [], signals := [] }
  | some local_addr =>
    match get_device_name env.store local_addr str_bdaddr with
    | some name =>
      { reply := some (Reply.methodReturn []),
        data := dbus_data, world := w, calls := [],
        signals := if env.signalSendOk
                   then [("RemoteName", [DBusArg.str str_bdaddr, DBusArg.str name])]
                   else [] }
    | none =>
      match env.openResult with
      | Except.error e =>
        { reply := bluez_new_failure_msg (Nat.lor BLUEZ_ESYSTEM_OFFSET e),
          data := dbus_data, world := w,
          calls := [TransportCall.openDev dbus_data.dev_id], signals := [] }
      | Except.ok _ =>
        let calls := [TransportCall.openDev dbus_data.dev_id,
                      TransportCall.sendReq OGF_LINK_CTL OCF_REMOTE_NAME_REQ]
        match env.send with
        | SendOutcome.sendFailed e =>
          { reply := bluez_new_failure_msg (Nat.lor BLUEZ_ESYSTEM_OFFSET e),
            data := dbus_data, world := w, calls := calls, signals := [] }
        | SendOutcome.responded status =>
          if status ≠ 0 then
            { reply := bluez_new_failure_msg (Nat.lor BLUEZ_EBT_OFFSET status),
              data := dbus_data, world := w, calls := calls, signals := [] }
          else
            { reply := some (Reply.methodReturn []),
              data := dbus_data, world := w, calls := calls, signals := [] }

/-! ## Controller registration (`dbus.c` lines 484-537, 546-657) -/

/-- The device path string `DEVICE_PATH "/hci" id` built by `snprintf`
(the `DEVICE_PATH` prefix constant lives in `hcid/dbus.h`; modelled from
the spec's `<DEVICE_ROOT>/hci<N>` shape). -/
def devicePath (id : Nat) : String := "/org/bluez/Device/hci" ++ toString id

/-- `register_dbus_path` of `dbus.c` (lines 484-520): allocates the
per-path record and binds it to the path; `bindOk` folds the malloc and
the libdbus registration outcome (on failure the record is freed and
nothing is bound).  The C record's `path_data` field is left
uninitialized here; it is written by the caller before any read, so the
model starts it at 0. -/
def register_dbus_path (w : World) (path : String) (path_id dev_id : Nat)
    (bindOk : Bool) : Bool × World :=
  if bindOk then
    (true, { w with paths := (path, ⟨dev_id, path_id, 0⟩) :: w.paths })
  else (false, w)

/-- Update helper for the binding list: rewrite the `path_data` field of
the first binding of `path`, leave the list unchanged when absent. -/
def setPathDataList : List (String × HciDbusData) → String → Nat → List (String × HciDbusData)
  | [], _, _ => []
  | p :: rest, path, v =>
    if p.1 = path then (p.1, { p.2 with path_data := v }) :: rest
    else p :: setPathDataList rest path v

/-- `dbus_connection_get_object_path_data` followed by the write
`pdata->path_data = v`: update the record bound to `path`, no-op when the
path is not bound (the C code only logs the lookup failure). -/
def setPathData (w : World) (path : String) (v : Nat) : World :=
  { w with paths := setPathDataList w.paths path v }

/-- Outcome of the read-scan-enable request issued during registration:
send failure with `errno`, or a response carrying status and enable bytes. -/
inductive ReadScanOutcome where
  | sendFailed (errno : Nat)
  | responded (status enable : Nat)
  deriving DecidableEq, Repr

/-- External inputs of one `hcid_dbus_register_device` run. -/
structure RegisterDeviceEnv where
  bindOk : Bool
  openOk : Bool
  readScan : ReadScanOutcome
  deriving DecidableEq, Repr

/-- The mode value `hcid_dbus_register_device` records: the controller's
reported enable byte when the open, the send and the status all succeed,
otherwise the fallback `SCAN_PAGE | SCAN_INQUIRY`. -/
def registerModeValue (env : RegisterDeviceEnv) : Nat :=
  if ¬env.openOk then Nat.lor SCAN_PAGE SCAN_INQUIRY
  else match env.readScan with
    | ReadScanOutcome.sendFailed _ => Nat.lor SCAN_PAGE SCAN_INQUIRY
    | ReadScanOutcome.responded status enable =>
      if status ≠ 0 then Nat.lor SCAN_PAGE SCAN_INQUIRY else enable

/-- `hcid_dbus_register_device` of `dbus.c` (lines 546-617): registers the
device path, queries the scan-enable state (fallback on open failure,
send failure or non-zero status), stores it in the path record, emits the
"device added" manager signal, and — in the common exit section — makes
this controller the default when registration succeeded and no default
exists.  The return value is exactly the path-registration outcome. -/
def hcid_dbus_register_device (w : World) (id : Nat) (env : RegisterDeviceEnv) :
    Bool × World :=
  let path := devicePath id
  let res := register_dbus_path w path DEVICE_PATH_ID id env.bindOk
  let ret := res.1
  let w2 := setPathData res.2 path (registerModeValue env)
  let w3 := if ret ∧ w2.default_dev = none then { w2 with default_dev := some id } else w2
  (ret, w3)

/-- External inputs of one `hcid_dbus_unregister_device` run: whether the
libdbus path unbind succeeds, and the kernel's system-route answer
(`hci_get_route(NULL)`, `none` for `-1`). -/
structure UnregisterDeviceEnv where
  unbindOk : Bool
  route : Option Nat
  deriving DecidableEq, Repr

/-- `unregister_dbus_path` of `dbus.c` (lines 522-537): the record is
freed (binding dropped from the model) first; the unbind outcome is the
return value. -/
def unregister_dbus_path (w : World) (path : String) (unbindOk : Bool) :
    Bool × World :=
  (unbindOk, { w with paths := w.paths.filter fun p => p.1 ≠ path })

/-- `hcid_dbus_unregister_device` of `dbus.c` (lines 619-657): emits the
"device removed" manager signal, unregisters the device path, and — only
when the unregistration succeeded and the removed controller was the
default — takes the new default from the kernel's system-route query. -/
def hcid_dbus_unregister_device (w : World) (id : Nat) (env : UnregisterDeviceEnv) :
    Bool × World :=
  let res := unregister_dbus_path w (devicePath id) env.unbindOk
  let ret := res.1
  let w2 := res.2
  let w3 := if ret ∧ w2.default_dev = some id then { w2 with default_dev := env.route } else w2
  (ret, w3)

/-- "Controller `id` is the default" in a given state. -/
def isDefault (w : World) (id : Nat) : Prop := w.default_dev = some id

/-! ## Pending PIN correlator (`dbus.c` lines 423-477, 659-707) -/

/-- The agent's reply as delivered to the pending-call notify: a D-Bus
error message, or a method return with its argument list.  (libdbus
guarantees the notify callback finds a reply message — the 30s timeout is
delivered as an error message, `DBUS_ERROR_NO_REPLY`.) -/
inductive AgentReply where
  | agentError (name msg : String)
  | agentReturn (args : List DBusArg)
  deriving DecidableEq, Repr

/-- `reply_handler_function` of `dbus.c` (lines 423-477): an error reply
or a reply whose first argument is not a string sends
`PIN_CODE_NEG_REPLY`; a string-typed first argument sends
`PIN_CODE_REPLY` with that PIN. -/
def reply_handler_function (reply : AgentReply) : List TransportCall :=
  match reply with
  | AgentReply.agentError _ _ =>
    [TransportCall.sendCmd OGF_LINK_CTL OCF_PIN_CODE_NEG_REPLY]
  | AgentReply.agentReturn args =>
    match args.head? with
    | some (DBusArg.str _) => [TransportCall.sendCmd OGF_LINK_CTL OCF_PIN_CODE_REPLY]
    | _ => [TransportCall.sendCmd OGF_LINK_CTL OCF_PIN_CODE_NEG_REPLY]

/-- How one authentication event plays out at the bus layer: the bus is
unreachable (and re-init fails), the method-call message cannot be
allocated, `dbus_connection_send_with_reply` fails, or the pending call
completes with an agent reply (agent errors, wrong shapes and the 30s
timeout all arrive as `replied` values). -/
inductive PinScenario where
  | busUnreachable
  | allocFailed
  | sendFailed
  | replied (r : AgentReply)
  deriving DecidableEq, Repr

/-- `hcid_dbus_request_pin` of `dbus.c` (lines 659-707) together with its
notify callback: every failure to reach an agent sends an immediate
`PIN_CODE_NEG_REPLY`; otherwise the pending call's completion runs
`reply_handler_function`.  The returned list is the full transport-command
trace of the authentication event. -/
def hcid_dbus_request_pin (s : PinScenario) : List TransportCall :=
  match s with
  | PinScenario.busUnreachable => [TransportCall.sendCmd OGF_LINK_CTL OCF_PIN_CODE_NEG_REPLY]
  | PinScenario.allocFailed => [TransportCall.sendCmd OGF_LINK_CTL OCF_PIN_CODE_NEG_REPLY]
  | PinScenario.sendFailed => [TransportCall.sendCmd OGF_LINK_CTL OCF_PIN_CODE_NEG_REPLY]
  | PinScenario.replied r => reply_handler_function r

/-- Counts PIN-accept transport commands in a trace. -/
def countPinAccept (calls : List TransportCall) : Nat :=
  calls.countP fun c => c = TransportCall.sendCmd OGF_LINK_CTL OCF_PIN_CODE_REPLY

/-- Counts PIN-negative transport commands in a trace. -/
def countPinNeg (calls : List TransportCall) : Nat :=
  calls.countP fun c => c = TransportCall.sendCmd OGF_LINK_CTL OCF_PIN_CODE_NEG_REPLY

/-- The agent outcome that accepts: a method return whose first argument
is string-typed. -/
def isStringPinReply (s : PinScenario) : Prop :=
  ∃ pin rest, s = PinScenario.replied (AgentReply.agentReturn (DBusArg.str pin :: rest))

/-! ## Router lemmas -/

theorem scanDeviceTable_no_name (tbl : List ServiceData) (m s : String) (err : Nat) (h : Bool)
    (hno : ∀ e ∈ tbl, e.name ≠ m) :
    scanDeviceTable tbl m s err h = ⟨[], err, h⟩ := by
  induction tbl with
  | nil => rfl
  | cons e rest ih =>
    have hne : e.name ≠ m := hno e (List.mem_cons_self e rest)
    simp only [scanDeviceTable, if_neg hne]
    exact ih fun x hx => hno x (List.mem_cons_of_mem e hx)

theorem scanDeviceTable_no_sig (tbl : List ServiceData) (m s : String) (err : Nat) (h : Bool)
    (hsig : ∀ e ∈ tbl, e.name = m → e.signature ≠ s)
    (hname : ∃ e ∈ tbl, e.name = m) :
    scanDeviceTable tbl m s err h = ⟨[], BLUEZ_EDBUS_WRONG_SIGNATURE, true⟩ := by
  induction tbl generalizing err h with
  | nil => exact absurd hname (by simp)
  | cons e rest ih =>
    by_cases hn : e.name = m
    · have hs : e.signature ≠ s := hsig e (List.mem_cons_self e rest) hn
      simp only [scanDeviceTable, if_pos hn, if_neg hs]
      by_cases hrest : ∃ x ∈ rest, x.name = m
      · exact ih _ _ (fun x hx hxm => hsig x (List.mem_cons_of_mem e hx) hxm) hrest
      · have hall : ∀ x ∈ rest, x.name ≠ m := fun x hx hxm => hrest ⟨x, hx, hxm⟩
        exact scanDeviceTable_no_name rest m s _ _ hall
    · simp only [scanDeviceTable, if_neg hn]
      rcases hname with ⟨x, hx, hxm⟩
      rcases List.mem_cons.mp hx with h1 | h2
      · exact absurd hxm (h1 ▸ hn)
      · exact ih _ _ (fun y hy hym => hsig y (List.mem_cons_of_mem e hy) hym) ⟨x, h2, hxm⟩

theorem scanManagerTable_no_name (tbl : List ServiceData) (m s : String)
    (inv : List String) (err : Nat) (h : Bool)
    (hno : ∀ e ∈ tbl, e.name ≠ m) :
    scanManagerTable tbl m s inv err h = ⟨inv, err, h⟩ := by
  induction tbl with
  | nil => rfl
  | cons e rest ih =>
    have hne : e.name ≠ m := hno e (List.mem_cons_self e rest)
    simp only [scanManagerTable, if_neg hne]
    exact ih fun x hx => hno x (List.mem_cons_of_mem e hx)

theorem scanManagerTable_no_sig (tbl : List ServiceData) (m s : String)
    (inv : List String) (err : Nat) (h : Bool)
    (hsig : ∀ e ∈ tbl, e.name = m → e.signature ≠ s)
    (hname : ∃ e ∈ tbl, e.name = m) :
    scanManagerTable tbl m s inv err h = ⟨inv, BLUEZ_EDBUS_WRONG_SIGNATURE, true⟩ := by
  induction tbl generalizing err h with
  | nil => exact absurd hname (by simp)
  | cons e rest ih =>
    by_cases hn : e.name = m
    · have hs : e.signature ≠ s := hsig e (List.mem_cons_self e rest) hn
      simp only [scanManagerTable, if_pos hn, if_pos hs]
      by_cases hrest : ∃ x ∈ rest, x.name = m
      · exact ih _ _ (fun x hx hxm => hsig x (List.mem_cons_of_mem e hx) hxm) hrest
      · have hall : ∀ x ∈ rest, x.name ≠ m := fun x hx hxm => hrest ⟨x, hx, hxm⟩
        exact scanManagerTable_no_name rest m s _ _ _ hall
    · simp only [scanManagerTable, if_neg hn]
      rcases hname with ⟨x, hx, hxm⟩
      rcases List.mem_cons.mp hx with h1 | h2
      · exact absurd hxm (h1 ▸ hn)
      · exact ih _ _ (fun y hy hym => hsig y (List.mem_cons_of_mem e hy) hym) ⟨x, h2, hxm⟩

/-- C2: a method-name match with no name+signature match is answered with
the "wrong signature" error, never "method not found"; "method not found"
is the answer exactly when no table entry bears the method name — for the
device table dispatcher and for the manager table dispatcher alike. -/
theorem dispatch_wrong_signature_vs_unknown_method :
    ∀ (dbus_data : HciDbusData) (iface method signature : String),
    (dbus_data.path_id ≠ DEVICE_ROOT_ID →
      (∃ e ∈ dev_services, e.name = method) →
      (∀ e ∈ dev_services, e.name = method → e.signature ≠ signature) →
      msg_func_device dbus_data method signature =
        ⟨true, true, [], some (RouteReply.failureCode BLUEZ_EDBUS_WRONG_SIGNATURE)⟩) ∧
    (dbus_data.path_id ≠ DEVICE_ROOT_ID →
      (∀ e ∈ dev_services, e.name ≠ method) →
      msg_func_device dbus_data method signature =
        ⟨false, true, [], some (RouteReply.failureCode BLUEZ_EDBUS_UNKNOWN_METHOD)⟩) ∧
    (iface = MANAGER_INTERFACE →
      (∃ e ∈ mgr_services, e.name = method) →
      (∀ e ∈ mgr_services, e.name = method → e.signature ≠ signature) →
      msg_func_manager iface method signature =
        ⟨true, true, [], some (RouteReply.failureCode BLUEZ_EDBUS_WRONG_SIGNATURE)⟩) ∧
    (iface = MANAGER_INTERFACE →
      (∀ e ∈ mgr_services, e.name ≠ method) →
      msg_func_manager iface method signature =
        ⟨false, true, [], some (RouteReply.failureCode BLUEZ_EDBUS_UNKNOWN_METHOD)⟩) := by
  intro dbus_data iface method signature
  refine ⟨fun hpath hname hsig => ?_, fun hpath hno => ?_,
          fun hif hname hsig => ?_, fun hif hno => ?_⟩
  · simp only [msg_func_device, if_neg hpath,
      scanDeviceTable_no_sig dev_services method signature _ _ hsig hname]
    simp [BLUEZ_EDBUS_WRONG_SIGNATURE, BLUEZ_EDBUS_OFFSET]
  · simp only [msg_func_device, if_neg hpath,
      scanDeviceTable_no_name dev_services method signature _ _ hno]
    simp [BLUEZ_EDBUS_UNKNOWN_METHOD, BLUEZ_EDBUS_OFFSET]
  · simp only [msg_func_manager, hif, if_neg (by simp : ¬(MANAGER_INTERFACE ≠ MANAGER_INTERFACE)),
      scanManagerTable_no_sig mgr_services method signature _ _ _ hsig hname]
    simp [BLUEZ_EDBUS_WRONG_SIGNATURE, BLUEZ_EDBUS_OFFSET]
  · simp only [msg_func_manager, hif, if_neg (by simp : ¬(MANAGER_INTERFACE ≠ MANAGER_INTERFACE)),
      scanManagerTable_no_name mgr_services method signature _ _ _ hno]
    simp [BLUEZ_EDBUS_UNKNOWN_METHOD, BLUEZ_EDBUS_OFFSET]

/-- C2 witness: `SetMode` called with a string argument instead of a byte
gets "wrong signature"; an unknown method name gets "method not found";
likewise on the manager table. -/
theorem dispatch_wrong_signature_vs_unknown_method_witness :
    msg_func_device ⟨0, DEVICE_PATH_ID, 0⟩ "SetMode" "s" =
      ⟨true, true, [], some (RouteReply.failureCode BLUEZ_EDBUS_WRONG_SIGNATURE)⟩ ∧
    msg_func_device ⟨0, DEVICE_PATH_ID, 0⟩ "NoSuchMethod" "" =
      ⟨false, true, [], some (RouteReply.failureCode BLUEZ_EDBUS_UNKNOWN_METHOD)⟩ ∧
    msg_func_manager MANAGER_INTERFACE "ListDevices" "s" =
      ⟨true, true, [], some (RouteReply.failureCode BLUEZ_EDBUS_WRONG_SIGNATURE)⟩ ∧
    msg_func_manager MANAGER_INTERFACE "NoSuchMethod" "" =
      ⟨false, true, [], some (RouteReply.failureCode BLUEZ_EDBUS_UNKNOWN_METHOD)⟩ := by
  refine ⟨?_, ?_, ?_, ?_⟩
  · exact (dispatch_wrong_signature_vs_unknown_method ⟨0, DEVICE_PATH_ID, 0⟩ "" "SetMode" "s").1
      (by decide) (by decide) (by decide)
  · exact (dispatch_wrong_signature_vs_unknown_method ⟨0, DEVICE_PATH_ID, 0⟩ "" "NoSuchMethod" "").2.1
      (by decide) (by decide)
  · exact (dispatch_wrong_signature_vs_unknown_method ⟨0, 0, 0⟩ MANAGER_INTERFACE "ListDevices" "s").2.2.1
      rfl (by decide) (by decide)
  · exact (dispatch_wrong_signature_vs_unknown_method ⟨0, 0, 0⟩ MANAGER_INTERFACE "NoSuchMethod" "").2.2.2
      rfl (by decide)

/-- C3: a call whose resolved path record is the device-root fallback
(`path_id = DEVICE_ROOT_ID`) is answered with the "unknown path" error for
every method name and signature; the handler table is not scanned and no
handler is invoked.  The attempted failure reply really is built: the
unknown-path code is in the D-Bus error table. -/
theorem device_root_fallback_unknown_path :
    ∀ (dbus_data : HciDbusData) (method signature : String),
    dbus_data.path_id = DEVICE_ROOT_ID →
    msg_func_device dbus_data method signature =
      ⟨true, false, [], some (RouteReply.failureCode BLUEZ_EDBUS_UNKNOWN_PATH)⟩ ∧
    bluez_new_failure_msg BLUEZ_EDBUS_UNKNOWN_PATH =
      some (Reply.errorReply "Unknown D-BUS path" [DBusArg.uint32 BLUEZ_EDBUS_UNKNOWN_PATH]) := by
  intro dbus_data method signature hroot
  constructor
  · simp [msg_func_device, hroot]
  · decide

/-- C3 witness: a `GetAddress()` call (existing name, matching signature)
reaching the fallback record still gets "unknown path" and invokes nothing. -/
theorem device_root_fallback_unknown_path_witness :
    msg_func_device ⟨INVALID_DEV_ID, DEVICE_ROOT_ID, 0⟩ "GetAddress" "" =
      ⟨true, false, [], some (RouteReply.failureCode BLUEZ_EDBUS_UNKNOWN_PATH)⟩ ∧
    bluez_new_failure_msg BLUEZ_EDBUS_UNKNOWN_PATH =
      some (Reply.errorReply "Unknown D-BUS path" [DBusArg.uint32 BLUEZ_EDBUS_UNKNOWN_PATH]) :=
  device_root_fallback_unknown_path ⟨INVALID_DEV_ID, DEVICE_ROOT_ID, 0⟩ "GetAddress" "" rfl

/-- C6: a numeric error code whose range-specific table (D-Bus range:
`dbus_error_array`; controller-status range: `hci_error_array`) has no
entry for it makes the error-to-string lookup return NULL and the
failure-reply constructor return no message at all; a code present in its
table yields an error reply whose error-name string is the table's text
with the code appended as a typed uint32 argument. -/
theorem failure_msg_table_lookup :
    ∀ ecode : Nat,
    (inDbusRange ecode → findErrorStr dbus_error_array ecode = none →
      bluez_dbus_error_to_str ecode = none ∧ bluez_new_failure_msg ecode = none) ∧
    (inDbusRange ecode → ∀ s, findErrorStr dbus_error_array ecode = some s →
      bluez_new_failure_msg ecode = some (Reply.errorReply s [DBusArg.uint32 ecode])) ∧
    (inHciRange ecode → findErrorStr hci_error_array ecode = none →
      bluez_dbus_error_to_str ecode = none ∧ bluez_new_failure_msg ecode = none) ∧
    (inHciRange ecode → ∀ s, findErrorStr hci_error_array ecode = some s →
      bluez_new_failure_msg ecode = some (Reply.errorReply s [DBusArg.uint32 ecode])) := by
  intro ecode
  refine ⟨fun hr hl => ?_, fun hr s hl => ?_, fun hr hl => ?_, fun hr s hl => ?_⟩
  · rw [bluez_new_failure_msg, bluez_dbus_error_to_str, if_neg (by simp [hr.1]), if_pos hr.2, hl]
    exact ⟨rfl, rfl⟩
  · rw [bluez_new_failure_msg, bluez_dbus_error_to_str, if_neg (by simp [hr.1]), if_pos hr.2, hl]
    rfl
  · rw [bluez_new_failure_msg, bluez_dbus_error_to_str, if_neg (by simp [hr.1]),
      if_neg (by simp [hr.2]), hl]
    exact ⟨rfl, rfl⟩
  · rw [bluez_new_failure_msg, bluez_dbus_error_to_str, if_neg (by simp [hr.1]),
      if_neg (by simp [hr.2]), hl]
    rfl

/-- C6 witness: the D-Bus-range code offset+0x3F and the reserved HCI
status 0x2B are absent from their tables and produce no reply; the
unknown-method code and HCI status 0x01 are present and produce the
table text with the code appended. -/
theorem failure_msg_table_lookup_witness :
    (bluez_dbus_error_to_str (BLUEZ_EDBUS_OFFSET + 0x3F) = none ∧
      bluez_new_failure_msg (BLUEZ_EDBUS_OFFSET + 0x3F) = none) ∧
    bluez_new_failure_msg BLUEZ_EDBUS_UNKNOWN_METHOD =
      some (Reply.errorReply "Method not found" [DBusArg.uint32 BLUEZ_EDBUS_UNKNOWN_METHOD]) ∧
    (bluez_dbus_error_to_str 0x2B = none ∧ bluez_new_failure_msg 0x2B = none) ∧
    bluez_new_failure_msg 0x01 =
      some (Reply.errorReply "Unknown HCI Command" [DBusArg.uint32 0x01]) := by
  refine ⟨?_, ?_, ?_, ?_⟩
  · exact (failure_msg_table_lookup (BLUEZ_EDBUS_OFFSET + 0x3F)).1 (by decide) (by decide)
  · exact (failure_msg_table_lookup BLUEZ_EDBUS_UNKNOWN_METHOD).2.1 (by decide) _ (by decide)
  · exact (failure_msg_table_lookup 0x2B).2.2.1 (by decide) (by decide)
  · exact (failure_msg_table_lookup 0x01).2.2.2 (by decide) _ (by decide)

/-- C9: GetMode maps the cached raw scan-enable byte as disabled to off,
page-scan-only to connectable, page+inquiry to discoverable, and the
inquiry-scan-only value — like every other raw value — to the reserved
byte 0xFF. -/
theorem get_mode_raw_byte_mapping :
    ∀ (dbus_data : HciDbusData) (w : World),
    dbus_data.path_data < 256 →
    (handle_dev_get_mode_req dbus_data w).reply =
      some (Reply.methodReturn [DBusArg.byte (hciModeToScanMode dbus_data.path_data)]) ∧
    (dbus_data.path_data = SCAN_DISABLED → hciModeToScanMode dbus_data.path_data = MODE_OFF) ∧
    (dbus_data.path_data = SCAN_PAGE → hciModeToScanMode dbus_data.path_data = MODE_CONNECTABLE) ∧
    (dbus_data.path_data = Nat.lor SCAN_PAGE SCAN_INQUIRY →
      hciModeToScanMode dbus_data.path_data = MODE_DISCOVERABLE) ∧
    (hciModeToScanMode SCAN_INQUIRY = 0xFF) ∧
    (dbus_data.path_data ≠ SCAN_DISABLED → dbus_data.path_data ≠ SCAN_PAGE →
      dbus_data.path_data ≠ Nat.lor SCAN_PAGE SCAN_INQUIRY →
      hciModeToScanMode dbus_data.path_data = 0xFF) := by
  intro dbus_data w hlt
  refine ⟨?_, fun h0 => by rw [h0]; decide, fun h2 => by rw [h2]; decide,
    fun h3 => by rw [h3]; decide, by decide, fun h0 h2 h3 => ?_⟩
  · rw [handle_dev_get_mode_req, Nat.mod_eq_of_lt hlt]
  · rw [hciModeToScanMode, if_neg h0, if_neg h2, if_neg h3]

/-- C9 witness: at cached byte `SCAN_INQUIRY` (inquiry scan only) GetMode
reports the reserved byte 0xFF; at the three specified bytes it reports
off/connectable/discoverable. -/
theorem get_mode_raw_byte_mapping_witness :
    (handle_dev_get_mode_req ⟨0, DEVICE_PATH_ID, SCAN_INQUIRY⟩ ⟨[], none⟩).reply =
      some (Reply.methodReturn [DBusArg.byte 0xFF]) ∧
    (handle_dev_get_mode_req ⟨0, DEVICE_PATH_ID, SCAN_DISABLED⟩ ⟨[], none⟩).reply =
      some (Reply.methodReturn [DBusArg.byte MODE_OFF]) ∧
    (handle_dev_get_mode_req ⟨0, DEVICE_PATH_ID, SCAN_PAGE⟩ ⟨[], none⟩).reply =
      some (Reply.methodReturn [DBusArg.byte MODE_CONNECTABLE]) ∧
    (handle_dev_get_mode_req ⟨0, DEVICE_PATH_ID, Nat.lor SCAN_PAGE SCAN_INQUIRY⟩ ⟨[], none⟩).reply =
      some (Reply.methodReturn [DBusArg.byte MODE_DISCOVERABLE]) := by
  refine ⟨?_, ?_, ?_, ?_⟩
  · have h := (get_mode_raw_byte_mapping ⟨0, DEVICE_PATH_ID, SCAN_INQUIRY⟩ ⟨[], none⟩ (by decide)).1
    rw [h]; decide
  · have h := (get_mode_raw_byte_mapping ⟨0, DEVICE_PATH_ID, SCAN_DISABLED⟩ ⟨[], none⟩ (by decide)).1
    rw [h]; decide
  · have h := (get_mode_raw_byte_mapping ⟨0, DEVICE_PATH_ID, SCAN_PAGE⟩ ⟨[], none⟩ (by decide)).1
    rw [h]; decide
  · have h := (get_mode_raw_byte_mapping ⟨0, DEVICE_PATH_ID, Nat.lor SCAN_PAGE SCAN_INQUIRY⟩
      ⟨[], none⟩ (by decide)).1
    rw [h]; decide

/-- C10: GetMode on a registered device path routes to the GetMode
handler, and that handler answers purely from the record's cached mode
byte: it issues no transport calls, emits no signals, and leaves the
per-path record, the path registry and the default-controller id exactly
as they were. -/
theorem get_mode_pure_frame :
    ∀ (dbus_data : HciDbusData) (w : World),
    dbus_data.path_id = DEVICE_PATH_ID →
    msg_func_device dbus_data "GetMode" "" =
      ⟨true, true, ["GetMode"], some (RouteReply.fromHandler "GetMode")⟩ ∧
    handle_dev_get_mode_req dbus_data w =
      ⟨some (Reply.methodReturn [DBusArg.byte (hciModeToScanMode (dbus_data.path_data % 256))]),
       dbus_data, w, [], []⟩ := by
  intro dbus_data w hpid
  constructor
  · have hroot : dbus_data.path_id ≠ DEVICE_ROOT_ID := by
      rw [hpid]; decide
    simp only [msg_func_device, if_neg hroot]
    have hscan : scanDeviceTable dev_services "GetMode" "" BLUEZ_EDBUS_UNKNOWN_METHOD false =
        ⟨["GetMode"], 0, true⟩ := by decide
    rw [hscan]
    rfl
  · rfl

/-- C10 witness: a concrete GetMode dispatch at cached byte `SCAN_PAGE`
with one registered path and a default controller set. -/
theorem get_mode_pure_frame_witness :
    msg_func_device ⟨5, DEVICE_PATH_ID, SCAN_PAGE⟩ "GetMode" "" =
      ⟨true, true, ["GetMode"], some (RouteReply.fromHandler "GetMode")⟩ ∧
    handle_dev_get_mode_req ⟨5, DEVICE_PATH_ID, SCAN_PAGE⟩
        ⟨[(devicePath 5, ⟨5, DEVICE_PATH_ID, SCAN_PAGE⟩)], some 5⟩ =
      ⟨some (Reply.methodReturn [DBusArg.byte (hciModeToScanMode (SCAN_PAGE % 256))]),
       ⟨5, DEVICE_PATH_ID, SCAN_PAGE⟩,
       ⟨[(devicePath 5, ⟨5, DEVICE_PATH_ID, SCAN_PAGE⟩)], some 5⟩, [], []⟩ :=
  get_mode_pure_frame ⟨5, DEVICE_PATH_ID, SCAN_PAGE⟩
    ⟨[(devicePath 5, ⟨5, DEVICE_PATH_ID, SCAN_PAGE⟩)], some 5⟩ rfl

theorem countScanWrites_nil : countScanWrites [] = 0 := rfl

theorem countScanWrites_openDev (d : Nat) (rest : List TransportCall) :
    countScanWrites (TransportCall.openDev d :: rest) = countScanWrites rest := by
  simp [countScanWrites, List.countP_cons]

theorem countScanWrites_write (rest : List TransportCall) :
    countScanWrites (TransportCall.sendReq OGF_HOST_CTL OCF_WRITE_SCAN_ENABLE :: rest) =
      countScanWrites rest + 1 := by
  simp [countScanWrites, List.countP_cons]

/-- C1 counterexample: with the cache at `SCAN_DISABLED` and a transport
stub answering success, `SetMode(connectable)` succeeds but leaves the
cached byte untouched (the handler never writes `path_data`), so the
following `GetMode()` reports `off`, not `connectable`, and a second
`SetMode(connectable)` sends the write-scan-enable command again —
two writes, not at most one. -/
theorem set_mode_then_get_mode_counterexample :
    (handle_dev_set_mode_req ⟨0, DEVICE_PATH_ID, SCAN_DISABLED⟩ MODE_CONNECTABLE
        ⟨true, SendOutcome.responded 0⟩ ⟨[], none⟩).reply = some (Reply.methodReturn []) ∧
    (handle_dev_set_mode_req ⟨0, DEVICE_PATH_ID, SCAN_DISABLED⟩ MODE_CONNECTABLE
        ⟨true, SendOutcome.responded 0⟩ ⟨[], none⟩).data = ⟨0, DEVICE_PATH_ID, SCAN_DISABLED⟩ ∧
    (handle_dev_get_mode_req
        (handle_dev_set_mode_req ⟨0, DEVICE_PATH_ID, SCAN_DISABLED⟩ MODE_CONNECTABLE
          ⟨true, SendOutcome.responded 0⟩ ⟨[], none⟩).data ⟨[], none⟩).reply =
      some (Reply.methodReturn [DBusArg.byte MODE_OFF]) ∧
    MODE_OFF ≠ MODE_CONNECTABLE ∧
    countScanWrites (handle_dev_set_mode_req ⟨0, DEVICE_PATH_ID, SCAN_DISABLED⟩ MODE_CONNECTABLE
        ⟨true, SendOutcome.responded 0⟩ ⟨[], none⟩).calls +
      countScanWrites (handle_dev_set_mode_req
        (handle_dev_set_mode_req ⟨0, DEVICE_PATH_ID, SCAN_DISABLED⟩ MODE_CONNECTABLE
          ⟨true, SendOutcome.responded 0⟩ ⟨[], none⟩).data MODE_CONNECTABLE
        ⟨true, SendOutcome.responded 0⟩ ⟨[], none⟩).calls = 2 := by
  decide

/-- C1 amended: `SetMode(X)` under a success stub replies success and
leaves the cached mode byte (and the global state) unchanged — the cache
is only refreshed by the separate scan-enable-complete controller event.
It skips the write-scan-enable transport command exactly when `X`'s raw
mode already equals the cached byte; hence two successive `SetMode(X)`
calls issue the write zero times when the raw mode matches the cache and
twice (not at most once) when it differs, and `GetMode()` after
`SetMode(X)` reports the abstract mode of the unchanged cached byte. -/
theorem set_mode_cache_unchanged_write_iff_differs :
    ∀ (dbus_data : HciDbusData) (w : World) (X raw : Nat) (env : SetModeEnv),
    scanModeToHciMode X = some raw →
    env.openOk = true →
    env.send = SendOutcome.responded 0 →
    (handle_dev_set_mode_req dbus_data X env w).reply = some (Reply.methodReturn []) ∧
    (handle_dev_set_mode_req dbus_data X env w).data = dbus_data ∧
    (handle_dev_set_mode_req dbus_data X env w).world = w ∧
    countScanWrites (handle_dev_set_mode_req dbus_data X env w).calls =
      (if dbus_data.path_data % 256 = raw then 0 else 1) ∧
    countScanWrites (handle_dev_set_mode_req dbus_data X env w).calls +
      countScanWrites (handle_dev_set_mode_req
        (handle_dev_set_mode_req dbus_data X env w).data X env w).calls =
      (if dbus_data.path_data % 256 = raw then 0 else 2) ∧
    (handle_dev_get_mode_req (handle_dev_set_mode_req dbus_data X env w).data w).reply =
      some (Reply.methodReturn [DBusArg.byte (hciModeToScanMode (dbus_data.path_data % 256))]) := by
  intro dbus_data w X raw env hraw hopen hsend
  obtain ⟨openOk, send⟩ := env
  simp only at hopen hsend
  subst hopen hsend
  have hrun : handle_dev_set_mode_req dbus_data X ⟨true, SendOutcome.responded 0⟩ w =
      if dbus_data.path_data % 256 ≠ raw then
        ⟨some (Reply.methodReturn []), dbus_data, w,
          [TransportCall.openDev dbus_data.dev_id,
           TransportCall.sendReq OGF_HOST_CTL OCF_WRITE_SCAN_ENABLE], []⟩
      else
        ⟨some (Reply.methodReturn []), dbus_data, w,
          [TransportCall.openDev dbus_data.dev_id], []⟩ := by
    rw [handle_dev_set_mode_req, hraw]
    by_cases hc : dbus_data.path_data % 256 = raw
    · simp [hc]
    · simp [hc]
  by_cases hc : dbus_data.path_data % 256 = raw
  · rw [hrun, if_neg (by simpa using hc)]
    refine ⟨rfl, rfl, rfl, ?_, ?_, ?_⟩
    · rw [countScanWrites_openDev, countScanWrites_nil, if_pos hc]
    · rw [hrun, if_neg (by simpa using hc)]
      rw [countScanWrites_openDev, countScanWrites_nil, if_pos hc]
    · rw [handle_dev_get_mode_req]
  · rw [hrun, if_pos (by simpa using hc)]
    refine ⟨rfl, rfl, rfl, ?_, ?_, ?_⟩
    · rw [countScanWrites_openDev, countScanWrites_write, countScanWrites_nil, if_neg hc]
    · rw [hrun, if_pos (by simpa using hc)]
      rw [countScanWrites_openDev, countScanWrites_write, countScanWrites_nil, if_neg hc]
    · rw [handle_dev_get_mode_req]

/-- C1 amended witness: concrete run at cache `SCAN_DISABLED`,
request `connectable` (raw `SCAN_PAGE`), success stub — one write per
call, cache untouched. -/
theorem set_mode_cache_unchanged_write_iff_differs_witness :
    (handle_dev_set_mode_req ⟨0, DEVICE_PATH_ID, SCAN_DISABLED⟩ MODE_CONNECTABLE
        ⟨true, SendOutcome.responded 0⟩ ⟨[], none⟩).data = ⟨0, DEVICE_PATH_ID, SCAN_DISABLED⟩ ∧
    countScanWrites (handle_dev_set_mode_req ⟨0, DEVICE_PATH_ID, SCAN_DISABLED⟩ MODE_CONNECTABLE
        ⟨true, SendOutcome.responded 0⟩ ⟨[], none⟩).calls = 1 := by
  have h := set_mode_cache_unchanged_write_iff_differs ⟨0, DEVICE_PATH_ID, SCAN_DISABLED⟩
    ⟨[], none⟩ MODE_CONNECTABLE SCAN_PAGE ⟨true, SendOutcome.responded 0⟩ (by decide) rfl rfl
  exact ⟨h.2.1, by rw [h.2.2.2.1]; decide⟩

/-- C4: every authentication event resolved through the PIN correlator
issues exactly one of the two PIN transport commands, never both: the
accept command exactly when the agent returned a string-typed PIN reply,
the negative command in every other terminal outcome (agent error reply,
wrong reply shape, send failure, allocation failure, unreachable bus). -/
theorem pin_correlator_exactly_one_resolution :
    ∀ s : PinScenario,
    countPinAccept (hcid_dbus_request_pin s) + countPinNeg (hcid_dbus_request_pin s) = 1 ∧
    (countPinAccept (hcid_dbus_request_pin s) = 1 ↔ isStringPinReply s) := by
  have hnegA : countPinAccept [TransportCall.sendCmd OGF_LINK_CTL OCF_PIN_CODE_NEG_REPLY] = 0 := by
    decide
  have hnegN : countPinNeg [TransportCall.sendCmd OGF_LINK_CTL OCF_PIN_CODE_NEG_REPLY] = 1 := by
    decide
  have haccA : countPinAccept [TransportCall.sendCmd OGF_LINK_CTL OCF_PIN_CODE_REPLY] = 1 := by
    decide
  have haccN : countPinNeg [TransportCall.sendCmd OGF_LINK_CTL OCF_PIN_CODE_REPLY] = 0 := by
    decide
  intro s
  match s with
  | PinScenario.busUnreachable =>
    have e : hcid_dbus_request_pin (PinScenario.busUnreachable) = [TransportCall.sendCmd OGF_LINK_CTL OCF_PIN_CODE_NEG_REPLY] := rfl
    exact ⟨by rw [e, hnegA, hnegN], by rw [e, hnegA]; simp [isStringPinReply]⟩
  | PinScenario.allocFailed =>
    have e : hcid_dbus_request_pin (PinScenario.allocFailed) = [TransportCall.sendCmd OGF_LINK_CTL OCF_PIN_CODE_NEG_REPLY] := rfl
    exact ⟨by rw [e, hnegA, hnegN], by rw [e, hnegA]; simp [isStringPinReply]⟩
  | PinScenario.sendFailed =>
    have e : hcid_dbus_request_pin (PinScenario.sendFailed) = [TransportCall.sendCmd OGF_LINK_CTL OCF_PIN_CODE_NEG_REPLY] := rfl
    exact ⟨by rw [e, hnegA, hnegN], by rw [e, hnegA]; simp [isStringPinReply]⟩
  | PinScenario.replied (AgentReply.agentError n m) =>
    have e : hcid_dbus_request_pin (PinScenario.replied (AgentReply.agentError n m)) = [TransportCall.sendCmd OGF_LINK_CTL OCF_PIN_CODE_NEG_REPLY] := rfl
    exact ⟨by rw [e, hnegA, hnegN], by rw [e, hnegA]; simp [isStringPinReply]⟩
  | PinScenario.replied (AgentReply.agentReturn []) =>
    have e : hcid_dbus_request_pin (PinScenario.replied (AgentReply.agentReturn [])) = [TransportCall.sendCmd OGF_LINK_CTL OCF_PIN_CODE_NEG_REPLY] := rfl
    exact ⟨by rw [e, hnegA, hnegN], by rw [e, hnegA]; simp [isStringPinReply]⟩
  | PinScenario.replied (AgentReply.agentReturn (DBusArg.str pin :: rest)) =>
    have e : hcid_dbus_request_pin (PinScenario.replied (AgentReply.agentReturn (DBusArg.str pin :: rest))) = [TransportCall.sendCmd OGF_LINK_CTL OCF_PIN_CODE_REPLY] := rfl
    exact ⟨by rw [e, haccA, haccN], by rw [e, haccA]; simp [isStringPinReply]⟩
  | PinScenario.replied (AgentReply.agentReturn (DBusArg.byte b :: rest)) =>
    have e : hcid_dbus_request_pin (PinScenario.replied (AgentReply.agentReturn (DBusArg.byte b :: rest))) = [TransportCall.sendCmd OGF_LINK_CTL OCF_PIN_CODE_NEG_REPLY] := rfl
    exact ⟨by rw [e, hnegA, hnegN], by rw [e, hnegA]; simp [isStringPinReply]⟩
  | PinScenario.replied (AgentReply.agentReturn (DBusArg.uint32 n :: rest)) =>
    have e : hcid_dbus_request_pin (PinScenario.replied (AgentReply.agentReturn (DBusArg.uint32 n :: rest))) = [TransportCall.sendCmd OGF_LINK_CTL OCF_PIN_CODE_NEG_REPLY] := rfl
    exact ⟨by rw [e, hnegA, hnegN], by rw [e, hnegA]; simp [isStringPinReply]⟩
  | PinScenario.replied (AgentReply.agentReturn (DBusArg.boolean b :: rest)) =>
    have e : hcid_dbus_request_pin (PinScenario.replied (AgentReply.agentReturn (DBusArg.boolean b :: rest))) = [TransportCall.sendCmd OGF_LINK_CTL OCF_PIN_CODE_NEG_REPLY] := rfl
    exact ⟨by rw [e, hnegA, hnegN], by rw [e, hnegA]; simp [isStringPinReply]⟩
  | PinScenario.replied (AgentReply.agentReturn (DBusArg.byteArray bs :: rest)) =>
    have e : hcid_dbus_request_pin (PinScenario.replied (AgentReply.agentReturn (DBusArg.byteArray bs :: rest))) = [TransportCall.sendCmd OGF_LINK_CTL OCF_PIN_CODE_NEG_REPLY] := rfl
    exact ⟨by rw [e, hnegA, hnegN], by rw [e, hnegA]; simp [isStringPinReply]⟩

/-- Codes built as `BLUEZ_ESYSTEM_OFFSET | errno` always carry the
system-range bit, so the error-to-string branch resolves them through
`strerror` and never returns NULL. -/
theorem system_range_bit (e : Nat) :
    Nat.land (Nat.lor BLUEZ_ESYSTEM_OFFSET e) BLUEZ_ESYSTEM_OFFSET ≠ 0 := by
  intro h
  have h' : (BLUEZ_ESYSTEM_OFFSET ||| e) &&& BLUEZ_ESYSTEM_OFFSET = 0 := h
  have ht : (BLUEZ_ESYSTEM_OFFSET).testBit 17 = true := by decide
  have hb : (BLUEZ_ESYSTEM_OFFSET ||| e).testBit 17 = true := by
    rw [Nat.testBit_lor, ht]
    rfl
  have h17 : ((BLUEZ_ESYSTEM_OFFSET ||| e) &&& BLUEZ_ESYSTEM_OFFSET).testBit 17 = true := by
    rw [Nat.testBit_land, hb, ht]
    rfl
  rw [h'] at h17
  simp [Nat.zero_testBit] at h17

theorem system_failure_msg_isSome (e : Nat) :
    (bluez_new_failure_msg (Nat.lor BLUEZ_ESYSTEM_OFFSET e)).isSome = true := by
  rw [bluez_new_failure_msg, bluez_dbus_error_to_str, if_pos (system_range_bit e)]
  rfl

/-- C5: with the local address known, a GetRemoteName call whose name
cache holds an entry for (local, peer) replies success, emits exactly one
RemoteName signal carrying the peer address and the cached name, and
issues zero transport calls; with no cache entry and the controller open
succeeding, it issues exactly one remote-name-request transport command
and, when that command's send fails, replies with the system-range
(transport-domain) failure message — which is always actually built. -/
theorem remote_name_cache_hit_and_miss :
    ∀ (dbus_data : HciDbusData) (w : World) (str_bdaddr local_addr : String)
      (env : RemoteNameEnv),
    env.devinfo = some local_addr →
    ((∀ name, env.store local_addr str_bdaddr = some name → env.signalSendOk = true →
      (handle_dev_remote_name_req dbus_data str_bdaddr env w).reply =
        some (Reply.methodReturn []) ∧
      (handle_dev_remote_name_req dbus_data str_bdaddr env w).calls = [] ∧
      (handle_dev_remote_name_req dbus_data str_bdaddr env w).signals =
        [("RemoteName", [DBusArg.str str_bdaddr, DBusArg.str name])]) ∧
     (env.store local_addr str_bdaddr = none → env.openResult = Except.ok () →
      ((handle_dev_remote_name_req dbus_data str_bdaddr env w).calls.countP
        (fun c => c = TransportCall.sendReq OGF_LINK_CTL OCF_REMOTE_NAME_REQ) = 1) ∧
      (∀ e, env.send = SendOutcome.sendFailed e →
        (handle_dev_remote_name_req dbus_data str_bdaddr env w).reply =
          bluez_new_failure_msg (Nat.lor BLUEZ_ESYSTEM_OFFSET e) ∧
        (bluez_new_failure_msg (Nat.lor BLUEZ_ESYSTEM_OFFSET e)).isSome = true))) := by
  intro dbus_data w str_bdaddr local_addr env hdev
  obtain ⟨devinfo, store, openResult, send, sigOk⟩ := env
  simp only at hdev
  subst hdev
  constructor
  · intro name hstore hsig
    simp only at hstore hsig
    subst hsig
    simp [handle_dev_remote_name_req, get_device_name, hstore]
  · intro hstore hopen
    simp only at hstore hopen
    subst hopen
    constructor
    · cases hs : send with
      | sendFailed e =>
        simp [handle_dev_remote_name_req, get_device_name, hstore, hs, List.countP_cons]
      | responded status =>
        by_cases h0 : status = 0
        · simp [handle_dev_remote_name_req, get_device_name, hstore, hs, h0, List.countP_cons]
        · simp [handle_dev_remote_name_req, get_device_name, hstore, hs, h0, List.countP_cons]
    · intro e hsf
      simp only at hsf
      subst hsf
      exact ⟨by simp [handle_dev_remote_name_req, get_device_name, hstore],
        system_failure_msg_isSome e⟩

/-- C5 witness: cache holding `(00:00:00:00:00:01, 00:00:00:00:00:02) →
Alice` gives success, one signal, no transport calls; an empty cache with
failing send gives exactly one remote-name request and the system-range
reply. -/
theorem remote_name_cache_hit_and_miss_witness :
    (let env : RemoteNameEnv :=
      ⟨some "00:00:00:00:00:01",
       fun l p => if l = "00:00:00:00:00:01" ∧ p = "00:00:00:00:00:02"
                  then some "Alice" else none,
       Except.ok (), SendOutcome.responded 0, true⟩
     (handle_dev_remote_name_req ⟨0, DEVICE_PATH_ID, 0⟩ "00:00:00:00:00:02" env
        ⟨[], none⟩).calls = [] ∧
     (handle_dev_remote_name_req ⟨0, DEVICE_PATH_ID, 0⟩ "00:00:00:00:00:02" env
        ⟨[], none⟩).signals =
       [("RemoteName", [DBusArg.str "00:00:00:00:00:02", DBusArg.str "Alice"])]) ∧
    (let env2 : RemoteNameEnv :=
      ⟨some "00:00:00:00:00:01", fun _ _ => none, Except.ok (),
       SendOutcome.sendFailed 5, true⟩
     ((handle_dev_remote_name_req ⟨0, DEVICE_PATH_ID, 0⟩ "00:00:00:00:00:02" env2
        ⟨[], none⟩).calls.countP
          (fun c => c = TransportCall.sendReq OGF_LINK_CTL OCF_REMOTE_NAME_REQ) = 1) ∧
     (handle_dev_remote_name_req ⟨0, DEVICE_PATH_ID, 0⟩ "00:00:00:00:00:02" env2
        ⟨[], none⟩).reply = bluez_new_failure_msg (Nat.lor BLUEZ_ESYSTEM_OFFSET 5)) := by
  constructor
  · have h := (remote_name_cache_hit_and_miss ⟨0, DEVICE_PATH_ID, 0⟩ ⟨[], none⟩
      "00:00:00:00:00:02" "00:00:00:00:00:01"
      ⟨some "00:00:00:00:00:01",
       fun l p => if l = "00:00:00:00:00:01" ∧ p = "00:00:00:00:00:02"
                  then some "Alice" else none,
       Except.ok (), SendOutcome.responded 0, true⟩ rfl).1 "Alice" (by simp) rfl
    exact ⟨h.2.1, h.2.2⟩
  · have h := (remote_name_cache_hit_and_miss ⟨0, DEVICE_PATH_ID, 0⟩ ⟨[], none⟩
      "00:00:00:00:00:02" "00:00:00:00:00:01"
      ⟨some "00:00:00:00:00:01", fun _ _ => none, Except.ok (),
       SendOutcome.sendFailed 5, true⟩ rfl).2 rfl rfl
    exact ⟨h.1, (h.2 5 rfl).1⟩

/-- C7: controller registration fails exactly when the namespace path
registration fails; when the path registration succeeds, the registered
record carries the queried mode — which falls back to
`SCAN_PAGE | SCAN_INQUIRY` (connectable+discoverable) whenever the
controller cannot be opened, the scan-enable query's send fails, or the
controller reports a non-zero status. -/
theorem register_device_ret_and_fallback_mode :
    ∀ (w : World) (id : Nat) (env : RegisterDeviceEnv),
    (hcid_dbus_register_device w id env).1 = env.bindOk ∧
    (env.bindOk = true →
      ((hcid_dbus_register_device w id env).2.paths.find?
        (fun p => p.1 == devicePath id)) =
        some (devicePath id, ⟨id, DEVICE_PATH_ID, registerModeValue env⟩)) ∧
    (env.openOk = false → registerModeValue env = Nat.lor SCAN_PAGE SCAN_INQUIRY) ∧
    (∀ e, env.readScan = ReadScanOutcome.sendFailed e →
      registerModeValue env = Nat.lor SCAN_PAGE SCAN_INQUIRY) ∧
    (∀ st en, env.readScan = ReadScanOutcome.responded st en → st ≠ 0 →
      registerModeValue env = Nat.lor SCAN_PAGE SCAN_INQUIRY) := by
  intro w id env
  refine ⟨?_, fun hbind => ?_, fun hopen => ?_, fun e hscan => ?_, fun st en hscan hst => ?_⟩
  · cases hb : env.bindOk <;>
      simp [hcid_dbus_register_device, register_dbus_path, hb, setPathData]
  · have hpaths : (hcid_dbus_register_device w id env).2.paths =
        (devicePath id, ⟨id, DEVICE_PATH_ID, registerModeValue env⟩) :: w.paths := by
      simp [hcid_dbus_register_device, register_dbus_path, hbind]
      split <;> simp [setPathData, setPathDataList]
    rw [hpaths]
    exact List.find?_cons_of_pos _ (by simp)
  · simp [registerModeValue, hopen]
  · cases ho : env.openOk <;> simp [registerModeValue, ho, hscan]
  · cases ho : env.openOk <;> simp [registerModeValue, ho, hscan, hst]

/-- C7 witness: with a failing open the registration still succeeds and
the recorded mode is the fallback `SCAN_PAGE | SCAN_INQUIRY`. -/
theorem register_device_ret_and_fallback_mode_witness :
    (hcid_dbus_register_device ⟨[], none⟩ 0
        ⟨true, false, ReadScanOutcome.responded 0 0⟩).1 = true ∧
    ((hcid_dbus_register_device ⟨[], none⟩ 0
        ⟨true, false, ReadScanOutcome.responded 0 0⟩).2.paths.find?
      (fun p => p.1 == devicePath 0)) =
      some (devicePath 0, ⟨0, DEVICE_PATH_ID,
        registerModeValue ⟨true, false, ReadScanOutcome.responded 0 0⟩⟩) ∧
    registerModeValue ⟨true, false, ReadScanOutcome.responded 0 0⟩ =
      Nat.lor SCAN_PAGE SCAN_INQUIRY := by
  have h := register_device_ret_and_fallback_mode ⟨[], none⟩ 0
    ⟨true, false, ReadScanOutcome.responded 0 0⟩
  exact ⟨h.1, h.2.1 rfl, h.2.2.1 rfl⟩

/-- C8: the default controller is a single optional id (two defaults
coincide); a successful registration with no default in place makes the
new controller the default, a failed registration never changes the
default, and an existing default survives any registration; removing the
default controller (successfully) replaces the default with the kernel's
system-route answer, so whenever that external query does not name the
removed id, the removed id is no longer reported as default. -/
theorem default_controller_invariants :
    (∀ (w : World) (i j : Nat), isDefault w i → isDefault w j → i = j) ∧
    (∀ (w : World) (id : Nat) (env : RegisterDeviceEnv),
      w.default_dev = none → env.bindOk = true →
      (hcid_dbus_register_device w id env).2.default_dev = some id) ∧
    (∀ (w : World) (id : Nat) (env : RegisterDeviceEnv),
      env.bindOk = false →
      (hcid_dbus_register_device w id env).2.default_dev = w.default_dev) ∧
    (∀ (w : World) (id d : Nat) (env : RegisterDeviceEnv),
      w.default_dev = some d →
      (hcid_dbus_register_device w id env).2.default_dev = some d) ∧
    (∀ (w : World) (C : Nat) (env : UnregisterDeviceEnv),
      w.default_dev = some C → env.unbindOk = true →
      (hcid_dbus_unregister_device w C env).2.default_dev = env.route) ∧
    (∀ (w : World) (C : Nat) (env : UnregisterDeviceEnv),
      w.default_dev = some C → env.unbindOk = true → env.route ≠ some C →
      (hcid_dbus_unregister_device w C env).2.default_dev ≠ some C) := by
  have hunreg : ∀ (w : World) (C : Nat) (env : UnregisterDeviceEnv),
      w.default_dev = some C → env.unbindOk = true →
      (hcid_dbus_unregister_device w C env).2.default_dev = env.route := by
    intro w C env hdef hok
    simp [hcid_dbus_unregister_device, unregister_dbus_path, hdef, hok]
  refine ⟨?_, ?_, ?_, ?_, hunreg, ?_⟩
  · intro w i j hi hj
    rw [isDefault] at hi hj
    rw [hi] at hj
    exact Option.some_injective _ hj
  · intro w id env hnone hbind
    simp [hcid_dbus_register_device, register_dbus_path, setPathData, hnone, hbind]
  · intro w id env hbind
    simp [hcid_dbus_register_device, register_dbus_path, setPathData, hbind]
  · intro w id d env hdef
    cases hb : env.bindOk <;>
      simp [hcid_dbus_register_device, register_dbus_path, setPathData, hdef, hb]
  · intro w C env hdef hok hroute
    rw [hunreg w C env hdef hok]
    exact hroute

/-- C8 witness: registering controller 7 on an empty world makes it the
default; unregistering it with the kernel route reporting no controller
leaves the default not equal to 7. -/
theorem default_controller_invariants_witness :
    (hcid_dbus_register_device ⟨[], none⟩ 7
        ⟨true, true, ReadScanOutcome.responded 0 SCAN_PAGE⟩).2.default_dev = some 7 ∧
    (hcid_dbus_unregister_device
        (hcid_dbus_register_device ⟨[], none⟩ 7
          ⟨true, true, ReadScanOutcome.responded 0 SCAN_PAGE⟩).2 7
        ⟨true, none⟩).2.default_dev = none ∧
    (hcid_dbus_unregister_device
        (hcid_dbus_register_device ⟨[], none⟩ 7
          ⟨true, true, ReadScanOutcome.responded 0 SCAN_PAGE⟩).2 7
        ⟨true, none⟩).2.default_dev ≠ some 7 := by
  have hreg := (default_controller_invariants).2.1 ⟨[], none⟩ 7
    ⟨true, true, ReadScanOutcome.responded 0 SCAN_PAGE⟩ rfl rfl
  have hun := (default_controller_invariants).2.2.2.2.1
    (hcid_dbus_register_device ⟨[], none⟩ 7
      ⟨true, true, ReadScanOutcome.responded 0 SCAN_PAGE⟩).2 7 ⟨true, none⟩ hreg rfl
  have hne := (default_controller_invariants).2.2.2.2.2
    (hcid_dbus_register_device ⟨[], none⟩ 7
      ⟨true, true, ReadScanOutcome.responded 0 SCAN_PAGE⟩).2 7 ⟨true, none⟩ hreg rfl
    (by simp)
  exact ⟨hreg, hun, hne⟩

end BluezDBus
